import Mathlib

/-!
A shallow embedding of the authentication / claims-propagation core of the
Jeeves4Service repository, with theorems checking its specification.

Embedded source files:
* `services/shared/dto/property_shared.py` — `PropertyClaimDto`
* `services/shared/j4s_utilities/token_models.py` — `TokenPayload` and its
  methods `to_dict`, `has_property_access`, `get_property_ids`,
  `get_owned_property_ids`
* `services/shared/j4s_jwt_lib/jwt_processor.py` — `JwtTokenProcessor`
  (`generate_token`, `decode_token`)
* `services/shared/j4s_utilities/jwt_helper.py` — `JwtHelper.verify_token`
* `services/household_service/app/services/find_item.py` —
  `FindItem.find_household_item`

Modelling conventions:
* Python `dict` payloads are association lists `List (String × DictVal)`
  in insertion order; `d[k] = v` is `dictSet`, `d.get`/`in` is `List.lookup`.
* Python `None` is `DictVal.vnull` as a dict value and `Option.none` as a
  model-field value.
* The external PyJWT library is modelled by `JwtDecodeOutcome`: `jwt.decode`
  either succeeds with a payload dict, raises `ExpiredSignatureError`
  (a structurally valid token past its `exp`), or raises some other
  `InvalidTokenError` (bad signature, wrong issuer/audience, malformed
  structure).  Every PyJWT failure is one of these two exception classes,
  which is exactly what the `except` clauses of `decode_token` catch.
* PostgreSQL full-text matching (`search_vector @@ to_tsquery`, `ilike`)
  and ranking (`ts_rank`) are abstracted as an arbitrary predicate
  `matchesSearch : Household → Bool` and key `rank : Household → Int`;
  the SQL `SELECT ... WHERE ... ORDER BY rank DESC LIMIT 10` is executed
  over a list of rows.
-/

/-- Values stored in a modelled Python dict (JWT payloads). -/
inductive DictVal where
  | vnull
  | vint (i : Int)
  | vstr (s : String)
  | vbool (b : Bool)
  | vprops (l : List (Int × String × String))
deriving DecidableEq, Repr

/-- Python `d[k] = v` on a dict: replace the value in place when the key is
present (insertion order preserved), append otherwise. -/
def dictSet (d : List (String × DictVal)) (k : String) (v : DictVal) : List (String × DictVal) :=
  match d with
  | [] => [(k, v)]
  | (k', v') :: rest => if k' = k then (k, v) :: rest else (k', v') :: dictSet rest k v

/-- Source `services/shared/dto/property_shared.py`, `PropertyClaimDto`:
lightweight property information for JWT claims. -/
structure PropertyClaimDto where
  property_id : Int
  property_name : String
  access_level : String
deriving DecidableEq, Repr

/-- Source `services/shared/j4s_utilities/token_models.py`, `TokenPayload`.
`user_id` is required; every other field is `Optional` (Python `None` is
`Option.none`; the Python defaults are `None`, `None`, `False`, `None`). -/
structure TokenPayload where
  user_id : Int
  username : Option String
  trace_id : Option String
  is_admin : Option Bool
  properties : Option (List PropertyClaimDto)
deriving DecidableEq, Repr

/-- Python `access_hierarchy.get(level, 1)` of `TokenPayload.has_property_access`:
the dict `{"guest": 1, "member": 2, "owner": 3}` read with default `1`. -/
def accessHierarchyGet (level : String) : Nat :=
  if level = "guest" then 1
  else if level = "member" then 2
  else if level = "owner" then 3
  else 1

/-- The `for prop in self.properties` loop of `has_property_access`:
access level of the first entry with the given `property_id`, if any. -/
def findAccessLevel (props : List PropertyClaimDto) (property_id : Int) : Option String :=
  match props with
  | [] => none
  | p :: rest =>
    if p.property_id = property_id then some p.access_level
    else findAccessLevel rest property_id

/-- Method `TokenPayload.has_property_access(property_id, required_level="member")`:
false when `properties` is `None` or empty; otherwise the first entry with a
matching `property_id` decides, comparing hierarchy ranks; false when no
entry matches. -/
def TokenPayload.has_property_access (self : TokenPayload) (property_id : Int)
    (required_level : String := "member") : Bool :=
  match self.properties with
  | none => false
  | some props =>
    if props.isEmpty then false
    else
      match findAccessLevel props property_id with
      | some lvl => accessHierarchyGet required_level ≤ accessHierarchyGet lvl
      | none => false

/-- The access level stored in the claims for `property_id` (first matching
entry, `None` properties read as the empty list). -/
def TokenPayload.storedLevel (self : TokenPayload) (property_id : Int) : Option String :=
  findAccessLevel (self.properties.getD []) property_id

/-- Method `TokenPayload.get_property_ids()`:
`[prop.property_id for prop in (self.properties or [])]`. -/
def TokenPayload.get_property_ids (self : TokenPayload) : List Int :=
  (self.properties.getD []).map (fun p => p.property_id)

/-- Method `TokenPayload.get_owned_property_ids()`: ids of entries whose
`access_level` equals `"owner"` (empty when `properties` is falsy). -/
def TokenPayload.get_owned_property_ids (self : TokenPayload) : List Int :=
  match self.properties with
  | none => []
  | some props => (props.filter (fun p => p.access_level = "owner")).map (fun p => p.property_id)

/-- A `PropertyClaimDto` as the plain tuple pydantic's `.dict()` stores in a
JWT payload (`property_id`, `property_name`, `access_level`). -/
def PropertyClaimDto.asTuple (p : PropertyClaimDto) : Int × String × String :=
  (p.property_id, p.property_name, p.access_level)

/-- An optional string as a Python dict value (`None` ↦ `vnull`). -/
def optStrVal : Option String → DictVal
  | none => DictVal.vnull
  | some s => DictVal.vstr s

/-- An optional bool as a Python dict value. -/
def optBoolVal : Option Bool → DictVal
  | none => DictVal.vnull
  | some b => DictVal.vbool b

/-- An optional claim list as a Python dict value. -/
def optPropsVal : Option (List PropertyClaimDto) → DictVal
  | none => DictVal.vnull
  | some l => DictVal.vprops (l.map PropertyClaimDto.asTuple)

/-- Pydantic `self.dict()` of a `TokenPayload`: every field keyed by name in
declaration order, absent optional fields appearing with value `None`. -/
def TokenPayload.dictAll (self : TokenPayload) : List (String × DictVal) :=
  [("user_id", DictVal.vint self.user_id),
   ("username", optStrVal self.username),
   ("trace_id", optStrVal self.trace_id),
   ("is_admin", optBoolVal self.is_admin),
   ("properties", optPropsVal self.properties)]

/-- Method `TokenPayload.to_dict()`:
`{k: v for k, v in self.dict().items() if v is not None}`. -/
def TokenPayload.to_dict (self : TokenPayload) : List (String × DictVal) :=
  self.dictAll.filter (fun kv => kv.2 ≠ DictVal.vnull)

/-- Pydantic validation of an `Optional[str]` field: an absent key or an
explicit `None` give `None`; a string gives the string; any other value is a
`ValidationError` (outer `none`).  (Pydantic v1 lax coercions of non-string
scalars are not modelled; no embedded payload exercises them.) -/
def readOptStr : Option DictVal → Option (Option String)
  | none => some none
  | some DictVal.vnull => some none
  | some (DictVal.vstr s) => some (some s)
  | some _ => none

/-- Pydantic validation of `is_admin : Optional[bool] = False`: an absent key
gives the default `False`; an explicit `None` stays `None`. -/
def readIsAdmin : Option DictVal → Option (Option Bool)
  | none => some (some false)
  | some DictVal.vnull => some none
  | some (DictVal.vbool b) => some (some b)
  | some _ => none

/-- Pydantic validation of `properties : Optional[List[PropertyClaimDto]]`:
each tuple is revalidated into a `PropertyClaimDto`. -/
def readProps : Option DictVal → Option (Option (List PropertyClaimDto))
  | none => some none
  | some DictVal.vnull => some none
  | some (DictVal.vprops l) =>
    some (some (l.map (fun t => PropertyClaimDto.mk t.1 t.2.1 t.2.2)))
  | some _ => none

/-- Constructor call `TokenPayload(**payload)`: pydantic construction from a dict.  `user_id`
must be present and an integer; optional fields fall back to their defaults;
extra keys (`iss`, `aud`, `exp`, ...) are ignored; a type mismatch is a
`ValidationError`, modelled as `none`. -/
def TokenPayload.fromDict (d : List (String × DictVal)) : Option TokenPayload :=
  match d.lookup "user_id" with
  | some (DictVal.vint uid) =>
    match readOptStr (d.lookup "username"), readOptStr (d.lookup "trace_id"),
          readIsAdmin (d.lookup "is_admin"), readProps (d.lookup "properties") with
    | some u, some t, some a, some p => some ⟨uid, u, t, a, p⟩
    | _, _, _, _ => none
  | _ => none

/-- Constructor arguments of `JwtTokenProcessor` (loaded once from
`jwt_config.yml`). -/
structure JwtConfig where
  issuer : String
  audience : String
  secret_key : String
  expiry_milli_seconds : Int
deriving DecidableEq, Repr

/-- Method `JwtTokenProcessor.generate_token(payload)`: mutates `payload` in place by
assigning the `iss`, `aud` and `exp` keys, then signs it.  `now` is the
current UTC time in milliseconds; the produced token is modelled as the final
payload together with the signing key.  The first component is the state of
the caller's dict after the call. -/
def JwtTokenProcessor.generate_token (cfg : JwtConfig) (now : Int)
    (payload : List (String × DictVal)) : List (String × DictVal) × (List (String × DictVal) × String) :=
  let p1 := dictSet payload "iss" (DictVal.vstr cfg.issuer)
  let p2 := dictSet p1 "aud" (DictVal.vstr cfg.audience)
  let p3 := dictSet p2 "exp" (DictVal.vint (now + cfg.expiry_milli_seconds))
  (p3, (p3, cfg.secret_key))

/-- Outcome of the external `jwt.decode` call on a presented token string:
success with the decoded payload, `ExpiredSignatureError`, or any other
`InvalidTokenError` (bad signature, wrong issuer/audience, malformed input —
PyJWT raises only `InvalidTokenError` subclasses on a string input). -/
inductive JwtDecodeOutcome where
  | ok (payload : List (String × DictVal))
  | expired
  | invalid
deriving DecidableEq, Repr

/-- Method `JwtTokenProcessor.decode_token(token)`: returns the decoded payload, or
`{"error": "Token has expired"}` on `ExpiredSignatureError`, or
`{"error": "Invalid token"}` on any other `InvalidTokenError`; it never
propagates an exception. -/
def JwtTokenProcessor.decode_token : JwtDecodeOutcome → List (String × DictVal)
  | JwtDecodeOutcome.ok payload => payload
  | JwtDecodeOutcome.expired => [("error", DictVal.vstr "Token has expired")]
  | JwtDecodeOutcome.invalid => [("error", DictVal.vstr "Invalid token")]

/-- Result of `JwtHelper.verify_token`: either the validated payload handed to
the route handler, or an `HTTPException(status_code, detail, headers)` that
FastAPI renders as that status with a JSON body `{"detail": <detail>}` and
the given `WWW-Authenticate` header; the handler is not reached. -/
inductive VerifyResult where
  | ok (payload : TokenPayload)
  | httpError (status : Nat) (detail : DictVal) (wwwAuthenticate : Option String)
deriving DecidableEq, Repr

/-- The detail of the `ValidationError` branch of `verify_token`.  The source
sends `f"Invalid token payload structure: {str(e)}"`; the pydantic-generated
suffix `str(e)` is abstracted away and only the fixed text is kept. -/
def invalidPayloadStructureDetail : DictVal :=
  DictVal.vstr "Invalid token payload structure"

/-- Method `JwtHelper.verify_token(authorization)`, given the outcome of
`decode_token` on the presented Bearer token: a payload containing an
`"error"` key is turned into a 401 with that value as detail and a
`WWW-Authenticate: Bearer` header; otherwise the payload is validated into a
`TokenPayload`, a `ValidationError` giving a 401 the same way. -/
def JwtHelper.verify_token (o : JwtDecodeOutcome) : VerifyResult :=
  let payload := JwtTokenProcessor.decode_token o
  match payload.lookup "error" with
  | some e => VerifyResult.httpError 401 e (some "Bearer")
  | none =>
    match TokenPayload.fromDict payload with
    | some tp => VerifyResult.ok tp
    | none => VerifyResult.httpError 401 invalidPayloadStructureDetail (some "Bearer")

/-- Source `services/household_service/app/models/household.py`, a `Household` row
(the `search_vector` column is abstracted into the search predicate). -/
structure Household where
  id : Int
  product_name : Option String
  general_name : String
  quantity : Int
  storage_id : Int
  property_id : Int
deriving DecidableEq, Repr

/-- Source `services/property_service/app/models/storage.py`, a `LocationPath` row. -/
structure LocationPath where
  storage_id : Int
  property_id : Int
  location_path : String
deriving DecidableEq, Repr

/-- Source `services/household_service/app/dto/household.py`, `HouseholdItemDTO`. -/
structure HouseholdItemDTO where
  product_name : Option String
  general_name : String
  quantity : Int
  storage_id : Int
  property_id : Int
  location : String
deriving DecidableEq, Repr

/-- Response DTO `SearchHouseholdItemResponseDTO`. -/
structure SearchHouseholdItemResponseDTO where
  items : List HouseholdItemDTO
deriving DecidableEq, Repr

/-- Insertion step of sorting by a key in descending order. -/
def insertDescBy {α : Type} (key : α → Int) (a : α) : List α → List α
  | [] => [a]
  | x :: xs => if key x ≤ key a then a :: x :: xs else x :: insertDescBy key a xs

/-- Sorting by a key in descending order (models SQL `ORDER BY key DESC`). -/
def sortDescBy {α : Type} (key : α → Int) : List α → List α
  | [] => []
  | x :: xs => insertDescBy key x (sortDescBy key xs)

/-- The SQL query of `find_household_item`: rows whose `property_id` is in
the accessible list and which match the search conditions, ordered by
descending rank, limited to 10. -/
def queryRows (db : List Household) (accessible : List Int)
    (matchesSearch : Household → Bool) (rank : Household → Int) : List Household :=
  ((sortDescBy rank (db.filter (fun h => accessible.contains h.property_id && matchesSearch h))).take 10)

/-- The `LocationPath` lookup of step 4: first row matching both ids, else
`'Unknown'`. -/
def lookupLocation (locs : List LocationPath) (sid pid : Int) : String :=
  match locs.find? (fun l => l.storage_id == sid && l.property_id == pid) with
  | some l => l.location_path
  | none => "Unknown"

/-- Step 4 of `find_household_item`: a result row as a `HouseholdItemDTO`. -/
def householdToDTO (locs : List LocationPath) (h : Household) : HouseholdItemDTO :=
  { product_name := h.product_name, general_name := h.general_name,
    quantity := h.quantity, storage_id := h.storage_id,
    property_id := h.property_id,
    location := lookupLocation locs h.storage_id h.property_id }

/-- The input validation `not search_term or not search_term.strip()`: true
exactly when the term is empty or consists of whitespace only. -/
def isBlankTerm (s : String) : Bool :=
  s.toList.all (fun c => c.isWhitespace)

/-- Result of one call to `find_household_item` together with whether
`session.execute(query)` was reached (`query_executed`). -/
structure FindOutcome where
  response : SearchHouseholdItemResponseDTO
  query_executed : Bool
deriving DecidableEq, Repr

/-- The accessible property ids extracted from the context token: the empty
list when `RequestContext.get_token()` returned `None`, else
`token_payload.get_property_ids()`. -/
def accessibleIds : Option TokenPayload → List Int
  | some t => t.get_property_ids
  | none => []

/-- Method `FindItem.find_household_item(search_term)`.
`token` is `RequestContext.get_token()`; `db` and `locs` are the `household`
and `location_path` tables; `matchesSearch`/`rank` abstract the full-text
conditions; `db_error` models a `SQLAlchemyError` raised by the execute call
(handled by returning an empty response); `item_error` models a per-item
processing exception (that item is skipped).  Control flow of the source:
empty or whitespace search term → empty response; no token or empty
`get_property_ids()` → empty response before the query is built; otherwise
the limited, ordered query runs and surviving rows become DTOs. -/
def FindItem.find_household_item (token : Option TokenPayload) (search_term : String)
    (db : List Household) (locs : List LocationPath)
    (matchesSearch : Household → Bool) (rank : Household → Int)
    (db_error : Bool := false) (item_error : Household → Bool := fun _ => false) : FindOutcome :=
  if isBlankTerm search_term then ⟨⟨[]⟩, false⟩
  else if (accessibleIds token).isEmpty then ⟨⟨[]⟩, false⟩
  else if db_error then ⟨⟨[]⟩, true⟩
  else
    ⟨⟨((queryRows db (accessibleIds token) matchesSearch rank).filter
        (fun h => !item_error h)).map (householdToDTO locs)⟩, true⟩

/-! ### Helper lemmas -/

/-- Unfolding of `has_property_access` through the first matching entry. -/
theorem has_property_access_eq_storedLevel (C : TokenPayload) (pid : Int) (L : String) :
    C.has_property_access pid L =
      (match C.storedLevel pid with
       | none => false
       | some lvl => decide (accessHierarchyGet L ≤ accessHierarchyGet lvl)) := by
  cases hp : C.properties with
  | none =>
    simp [TokenPayload.has_property_access, TokenPayload.storedLevel, hp, findAccessLevel]
  | some props =>
    cases props with
    | nil =>
      simp [TokenPayload.has_property_access, TokenPayload.storedLevel, hp, findAccessLevel]
    | cons p rest =>
      simp only [TokenPayload.has_property_access, TokenPayload.storedLevel, hp,
        Option.getD_some, List.isEmpty_cons, Bool.false_eq_true, if_false]
      cases findAccessLevel (p :: rest) pid <;> rfl

/-- Every access level has hierarchy rank at least 1 (the dict default). -/
theorem one_le_accessHierarchyGet (s : String) : 1 ≤ accessHierarchyGet s := by
  unfold accessHierarchyGet
  split
  · exact Nat.le_refl 1
  · split
    · omega
    · split <;> omega

/-- C4: for a required level among guest/member/owner, `has_property_access`
is false when the claims hold no entry for the property (including `None` or
empty `properties`), and otherwise is true exactly when the rank of the first
stored level for the property is at least the rank of the required level;
in particular a stored `"owner"` satisfies required `"member"` and a stored
`"guest"` does not.  (The Lean default argument of `required_level` is
`"member"`, mirroring the Python default.) -/
theorem hasPropertyAccess_rank_correct (C : TokenPayload) (pid : Int) (L : String)
    (hL : L = "guest" ∨ L = "member" ∨ L = "owner") :
    (C.storedLevel pid = none → C.has_property_access pid L = false)
    ∧ (∀ lvl, C.storedLevel pid = some lvl →
        (C.has_property_access pid L = true ↔ accessHierarchyGet L ≤ accessHierarchyGet lvl))
    ∧ (C.storedLevel pid = some "owner" → C.has_property_access pid "member" = true)
    ∧ (C.storedLevel pid = some "guest" → C.has_property_access pid "member" = false) := by
  refine ⟨fun h => ?_, fun lvl h => ?_, fun h => ?_, fun h => ?_⟩
  · rw [has_property_access_eq_storedLevel, h]
  · rw [has_property_access_eq_storedLevel, h]
    simp
  · rw [has_property_access_eq_storedLevel, h]
    decide
  · rw [has_property_access_eq_storedLevel, h]
    decide

/-- Witness for C4 at a concrete claim set: stored level `"owner"` on
property 7 satisfies required level `"member"`. -/
theorem hasPropertyAccess_rank_correct_witness :
    (TokenPayload.mk 42 (some "ann") none (some false)
      (some [PropertyClaimDto.mk 7 "home" "owner"])).has_property_access 7 "member" = true :=
  (hasPropertyAccess_rank_correct
    (TokenPayload.mk 42 (some "ann") none (some false)
      (some [PropertyClaimDto.mk 7 "home" "owner"])) 7 "member"
    (Or.inr (Or.inl rfl))).2.2.1 (by decide)

/-- C10: a required level outside guest/member/owner gets the dict default
rank 1, which every stored level's rank meets, so any claims holding an entry
for the property grant access. -/
theorem hasPropertyAccess_unknown_required_level (C : TokenPayload) (pid : Int)
    (L : String) (lvl : String)
    (h1 : L ≠ "guest") (h2 : L ≠ "member") (h3 : L ≠ "owner")
    (hs : C.storedLevel pid = some lvl) :
    C.has_property_access pid L = true := by
  rw [has_property_access_eq_storedLevel, hs]
  have hrank : accessHierarchyGet L = 1 := by
    unfold accessHierarchyGet
    simp [h1, h2, h3]
  simp [hrank, one_le_accessHierarchyGet]

/-- Witness for C10: required level `"administrator"` is unknown, and a
claim set holding `"guest"` access on property 9 is granted. -/
theorem hasPropertyAccess_unknown_required_level_witness :
    (TokenPayload.mk 5 none none none
      (some [PropertyClaimDto.mk 9 "barn" "guest"])).has_property_access 9 "administrator" = true :=
  hasPropertyAccess_unknown_required_level
    (TokenPayload.mk 5 none none none (some [PropertyClaimDto.mk 9 "barn" "guest"]))
    9 "administrator" "guest" (by decide) (by decide) (by decide) (by decide)

/-- Pydantic revalidation of serialized claim tuples is the identity. -/
theorem props_asTuple_roundtrip (l : List PropertyClaimDto) :
    (l.map PropertyClaimDto.asTuple).map (fun t => PropertyClaimDto.mk t.1 t.2.1 t.2.2) = l := by
  induction l with
  | nil => rfl
  | cons p rest ih => simp [PropertyClaimDto.asTuple, ih]

/-- Composed form of `props_asTuple_roundtrip`. -/
theorem props_asTuple_comp (l : List PropertyClaimDto) :
    List.map ((fun t => PropertyClaimDto.mk t.1 t.2.1 t.2.2) ∘ PropertyClaimDto.asTuple) l = l := by
  induction l with
  | nil => rfl
  | cons p rest ih => simp [PropertyClaimDto.asTuple, ih]

/-- C8: the serialized `to_dict` form carries no `None` value and no key for
an absent optional field, and pydantic reconstruction from it recovers every
field that was present (an absent `is_admin` comes back as its default
`False`; the other absent optional fields come back as `None`). -/
theorem to_dict_roundtrip (C : TokenPayload) :
    (∀ kv ∈ C.to_dict, kv.2 ≠ DictVal.vnull)
    ∧ (C.username = none → C.to_dict.lookup "username" = none)
    ∧ (C.trace_id = none → C.to_dict.lookup "trace_id" = none)
    ∧ (C.is_admin = none → C.to_dict.lookup "is_admin" = none)
    ∧ (C.properties = none → C.to_dict.lookup "properties" = none)
    ∧ TokenPayload.fromDict C.to_dict
        = some (TokenPayload.mk C.user_id C.username C.trace_id
            (some (C.is_admin.getD false)) C.properties) := by
  obtain ⟨uid, u, t, a, p⟩ := C
  cases u <;> cases t <;> cases a <;> cases p <;>
    simp [TokenPayload.to_dict, TokenPayload.dictAll, TokenPayload.fromDict,
      optStrVal, optBoolVal, optPropsVal, readOptStr, readIsAdmin, readProps,
      List.lookup, props_asTuple_roundtrip, props_asTuple_comp]

/-- Witness for C8 at a concrete claim set with every optional field absent:
no serialized `username` entry, and reconstruction succeeds. -/
theorem to_dict_roundtrip_witness :
    ((TokenPayload.mk 1 none none none none).to_dict.lookup "username" = none)
    ∧ TokenPayload.fromDict (TokenPayload.mk 1 none none none none).to_dict
        = some (TokenPayload.mk 1 none none (some false) none) :=
  ⟨(to_dict_roundtrip (TokenPayload.mk 1 none none none none)).2.1 rfl,
   (to_dict_roundtrip (TokenPayload.mk 1 none none none none)).2.2.2.2.2⟩

/-- C3: `decode_token` is a total function of the decode outcome (the
`except` clauses catch `ExpiredSignatureError` and every other
`InvalidTokenError`, so no exception escapes for any input string); an
expired token yields the expired error value, every malformed input yields
uniformly the single invalid error value, and the two error values are
distinct, so callers can branch on them. -/
theorem decode_token_error_kinds :
    JwtTokenProcessor.decode_token JwtDecodeOutcome.expired
      = [("error", DictVal.vstr "Token has expired")]
    ∧ JwtTokenProcessor.decode_token JwtDecodeOutcome.invalid
      = [("error", DictVal.vstr "Invalid token")]
    ∧ JwtTokenProcessor.decode_token JwtDecodeOutcome.expired
      ≠ JwtTokenProcessor.decode_token JwtDecodeOutcome.invalid := by
  refine ⟨rfl, rfl, ?_⟩
  decide

/-- Counterexample to C2 as stated: the 401 detail strings produced by
`verify_token` are `"Token has expired"` and `"Invalid token"`, not the
claimed lowercase `"token expired"` and `"invalid token"`; and a decoded
payload missing `user_id` is rejected with the distinct detail
`"Invalid token payload structure..."`, not with reason `"invalid token"`. -/
theorem verify_token_reason_strings_counterexample :
    JwtHelper.verify_token JwtDecodeOutcome.expired
      = VerifyResult.httpError 401 (DictVal.vstr "Token has expired") (some "Bearer")
    ∧ DictVal.vstr "Token has expired" ≠ DictVal.vstr "token expired"
    ∧ JwtHelper.verify_token JwtDecodeOutcome.invalid
      = VerifyResult.httpError 401 (DictVal.vstr "Invalid token") (some "Bearer")
    ∧ DictVal.vstr "Invalid token" ≠ DictVal.vstr "invalid token"
    ∧ JwtHelper.verify_token (JwtDecodeOutcome.ok [("username", DictVal.vstr "ann")])
      = VerifyResult.httpError 401 invalidPayloadStructureDetail (some "Bearer")
    ∧ invalidPayloadStructureDetail ≠ DictVal.vstr "invalid token" := by
  refine ⟨rfl, ?_, rfl, ?_, rfl, ?_⟩ <;> decide

/-- C2 (amended): every Bearer token that fails to decode is rejected with
HTTP 401, a `WWW-Authenticate: Bearer` header and a JSON body
`{"detail": <reason>}`, with reason `"Token has expired"` when the token is
expired and `"Invalid token"` when it is invalid; a decoded payload that
fails `TokenPayload` validation (e.g. missing the required `user_id`) is
rejected with the same status and header and detail
`"Invalid token payload structure: ..."`; the request handler receives a
payload only when decoding and validation both succeed. -/
theorem verify_token_rejects_bad_tokens (o : JwtDecodeOutcome) :
    (o = JwtDecodeOutcome.expired →
      JwtHelper.verify_token o
        = VerifyResult.httpError 401 (DictVal.vstr "Token has expired") (some "Bearer"))
    ∧ (o = JwtDecodeOutcome.invalid →
      JwtHelper.verify_token o
        = VerifyResult.httpError 401 (DictVal.vstr "Invalid token") (some "Bearer"))
    ∧ (∀ p, o = JwtDecodeOutcome.ok p → p.lookup "error" = none →
        TokenPayload.fromDict p = none →
        JwtHelper.verify_token o
          = VerifyResult.httpError 401 invalidPayloadStructureDetail (some "Bearer"))
    ∧ (∀ tp, JwtHelper.verify_token o = VerifyResult.ok tp →
        ∃ p, o = JwtDecodeOutcome.ok p ∧ TokenPayload.fromDict p = some tp) := by
  refine ⟨fun h => by subst h; rfl, fun h => by subst h; rfl, fun p h he hv => ?_, fun tp h => ?_⟩
  · subst h
    simp [JwtHelper.verify_token, JwtTokenProcessor.decode_token, he, hv]
  · cases o with
    | ok p =>
      refine ⟨p, rfl, ?_⟩
      unfold JwtHelper.verify_token JwtTokenProcessor.decode_token at h
      cases hl : p.lookup "error" with
      | some e => simp [hl] at h
      | none =>
        simp only [hl] at h
        cases hf : TokenPayload.fromDict p with
        | some tp' => simp [hf] at h; simp [hf, h]
        | none => simp [hf] at h
    | expired => simp [JwtHelper.verify_token, JwtTokenProcessor.decode_token, List.lookup] at h
    | invalid => simp [JwtHelper.verify_token, JwtTokenProcessor.decode_token, List.lookup] at h

/-- Witness for the amended C2 at the expired outcome. -/
theorem verify_token_rejects_bad_tokens_witness :
    JwtHelper.verify_token JwtDecodeOutcome.expired
      = VerifyResult.httpError 401 (DictVal.vstr "Token has expired") (some "Bearer") :=
  (verify_token_rejects_bad_tokens JwtDecodeOutcome.expired).1 rfl

/-- Counterexample to C7 as stated: passing the empty dict to
`generate_token` leaves it holding the `iss`, `aud` and `exp` entries, so the
caller's payload dict is not unchanged after the call. -/
theorem generate_token_mutates_payload :
    (JwtTokenProcessor.generate_token (JwtConfig.mk "iss1" "aud1" "sk" 1000) 0 []).1 ≠ [] := by
  decide

/-- Assigning a key makes it present with the assigned value. -/
theorem lookup_dictSet_self (d : List (String × DictVal)) (k : String) (v : DictVal) :
    (dictSet d k v).lookup k = some v := by
  induction d with
  | nil => simp [dictSet, List.lookup]
  | cons kv rest ih =>
    obtain ⟨k', v'⟩ := kv
    by_cases h : k' = k
    · subst h
      simp [dictSet, List.lookup]
    · have hb : (k == k') = false := beq_eq_false_iff_ne.mpr (Ne.symm h)
      simp [dictSet, h, List.lookup, hb, ih]

/-- Assigning a key leaves every other key's value unchanged. -/
theorem lookup_dictSet_other (d : List (String × DictVal)) (k k' : String) (v : DictVal)
    (h : k' ≠ k) :
    (dictSet d k v).lookup k' = d.lookup k' := by
  induction d with
  | nil =>
    have hb : (k' == k) = false := beq_eq_false_iff_ne.mpr h
    simp [dictSet, List.lookup, hb]
  | cons kv rest ih =>
    obtain ⟨k0, v0⟩ := kv
    by_cases h0 : k0 = k
    · subst h0
      have hb : (k' == k0) = false := beq_eq_false_iff_ne.mpr h
      simp [dictSet, List.lookup, hb]
    · simp only [dictSet, if_neg h0]
      cases hbk : k' == k0 with
      | true => simp [List.lookup, hbk]
      | false => simp [List.lookup, hbk, ih]

/-- C7 (amended): `generate_token` mutates its payload dict in place, setting
exactly the `iss`, `aud` and `exp` keys (to the configured issuer, the
configured audience and current time plus the configured expiry); on every
other key the dict is unchanged, and, this in-place update of the argument
aside, the produced token is a pure function of the configuration, the
current time and the payload. -/
theorem generate_token_frame (cfg : JwtConfig) (now : Int)
    (payload : List (String × DictVal)) (k : String)
    (h1 : k ≠ "iss") (h2 : k ≠ "aud") (h3 : k ≠ "exp") :
    ((JwtTokenProcessor.generate_token cfg now payload).1.lookup k = payload.lookup k)
    ∧ (JwtTokenProcessor.generate_token cfg now payload).1.lookup "iss"
        = some (DictVal.vstr cfg.issuer)
    ∧ (JwtTokenProcessor.generate_token cfg now payload).1.lookup "aud"
        = some (DictVal.vstr cfg.audience)
    ∧ (JwtTokenProcessor.generate_token cfg now payload).1.lookup "exp"
        = some (DictVal.vint (now + cfg.expiry_milli_seconds)) := by
  unfold JwtTokenProcessor.generate_token
  refine ⟨?_, ?_, ?_, ?_⟩
  · rw [lookup_dictSet_other _ _ _ _ h3, lookup_dictSet_other _ _ _ _ h2,
      lookup_dictSet_other _ _ _ _ h1]
  · rw [lookup_dictSet_other _ _ _ _ (by decide), lookup_dictSet_other _ _ _ _ (by decide),
      lookup_dictSet_self]
  · rw [lookup_dictSet_other _ _ _ _ (by decide), lookup_dictSet_self]
  · rw [lookup_dictSet_self]

/-- Witness for the amended C7: a `user_id` entry survives the call with its
value unchanged. -/
theorem generate_token_frame_witness :
    (JwtTokenProcessor.generate_token (JwtConfig.mk "iss1" "aud1" "sk" 1000) 0
        [("user_id", DictVal.vint 3)]).1.lookup "user_id"
      = ([("user_id", DictVal.vint 3)] : List (String × DictVal)).lookup "user_id" :=
  (generate_token_frame (JwtConfig.mk "iss1" "aud1" "sk" 1000) 0
    [("user_id", DictVal.vint 3)] "user_id" (by decide) (by decide) (by decide)).1

/-- Membership through the descending insertion step. -/
theorem mem_insertDescBy {α : Type} (key : α → Int) (a b : α) (l : List α) :
    b ∈ insertDescBy key a l ↔ b = a ∨ b ∈ l := by
  induction l with
  | nil => simp [insertDescBy]
  | cons x xs ih =>
    simp only [insertDescBy]
    split
    · simp
    · simp [ih]
      tauto

/-- Sorting in descending order preserves the set of elements. -/
theorem mem_sortDescBy {α : Type} (key : α → Int) (b : α) (l : List α) :
    b ∈ sortDescBy key l ↔ b ∈ l := by
  induction l with
  | nil => simp [sortDescBy]
  | cons x xs ih => simp [sortDescBy, mem_insertDescBy, ih]

/-- The descending insertion step preserves descending order. -/
theorem pairwise_insertDescBy {α : Type} (key : α → Int) (a : α) (l : List α)
    (h : List.Pairwise (fun x y => key y ≤ key x) l) :
    List.Pairwise (fun x y => key y ≤ key x) (insertDescBy key a l) := by
  induction l with
  | nil => simp [insertDescBy]
  | cons x xs ih =>
    rcases List.pairwise_cons.mp h with ⟨hx, hxs⟩
    simp only [insertDescBy]
    split
    · refine List.pairwise_cons.mpr ⟨?_, h⟩
      intro b hb
      rcases List.mem_cons.mp hb with hb | hb
      · subst hb
        assumption
      · exact le_trans (hx b hb) (by assumption)
    · refine List.pairwise_cons.mpr ⟨?_, ih hxs⟩
      intro b hb
      rcases (mem_insertDescBy key a b xs).mp hb with hb | hb
      · subst hb
        omega
      · exact hx b hb
    
/-- The result of `sortDescBy` is in descending key order. -/
theorem pairwise_sortDescBy {α : Type} (key : α → Int) (l : List α) :
    List.Pairwise (fun x y => key y ≤ key x) (sortDescBy key l) := by
  induction l with
  | nil => simp [sortDescBy]
  | cons x xs ih => exact pairwise_insertDescBy key x _ ih

/-- Every row returned by the limited, ordered query satisfies the filter
predicate of the `WHERE` clause. -/
theorem queryRows_mem_filter (db : List Household) (accessible : List Int)
    (matchesSearch : Household → Bool) (rank : Household → Int) (h : Household)
    (hmem : h ∈ queryRows db accessible matchesSearch rank) :
    accessible.contains h.property_id = true ∧ matchesSearch h = true := by
  unfold queryRows at hmem
  have h1 := List.mem_of_mem_take hmem
  have h2 := (mem_sortDescBy rank h _).mp h1
  have h3 := List.mem_filter.mp h2
  have h4 := h3.2
  simp only [Bool.and_eq_true] at h4
  exact h4

/-- C1: when the request context holds claims `C`, every item returned by
`find_household_item` has a `property_id` belonging to
`C.get_property_ids()` — the search never returns an item whose property
lies outside the caller's claimed property set, for every search term,
database content, location table, search semantics, database failure and
per-item processing failure. -/
theorem find_household_item_scoped (token : Option TokenPayload) (C : TokenPayload)
    (search_term : String) (db : List Household) (locs : List LocationPath)
    (matchesSearch : Household → Bool) (rank : Household → Int)
    (db_error : Bool) (item_error : Household → Bool) (item : HouseholdItemDTO)
    (htok : token = some C)
    (hmem : item ∈ (FindItem.find_household_item token search_term db locs
        matchesSearch rank db_error item_error).response.items) :
    item.property_id ∈ C.get_property_ids := by
  subst htok
  unfold FindItem.find_household_item at hmem
  split at hmem
  · simp at hmem
  · split at hmem
    · simp at hmem
    · split at hmem
      · simp at hmem
      · simp only [List.mem_map] at hmem
        obtain ⟨h, hh, hdto⟩ := hmem
        have hq := queryRows_mem_filter db (accessibleIds (some C)) matchesSearch rank h
          (List.mem_filter.mp hh).1
        have hpid : h.property_id ∈ accessibleIds (some C) :=
          List.mem_of_elem_eq_true hq.1
        rw [← hdto]
        exact hpid

/-- Witness for C1: a concrete search over one row on property 7 with claims
covering properties 7 and 9. -/
theorem find_household_item_scoped_witness :
    (householdToDTO [] (Household.mk 1 (some "milk") "milk" 2 100 7)).property_id
      ∈ (TokenPayload.mk 42 (some "ann") none (some false)
          (some [PropertyClaimDto.mk 7 "home" "owner",
                 PropertyClaimDto.mk 9 "barn" "guest"])).get_property_ids :=
  find_household_item_scoped
    (some (TokenPayload.mk 42 (some "ann") none (some false)
      (some [PropertyClaimDto.mk 7 "home" "owner", PropertyClaimDto.mk 9 "barn" "guest"])))
    (TokenPayload.mk 42 (some "ann") none (some false)
      (some [PropertyClaimDto.mk 7 "home" "owner", PropertyClaimDto.mk 9 "barn" "guest"]))
    "milk" [Household.mk 1 (some "milk") "milk" 2 100 7] []
    (fun _ => true) (fun _ => 0) false (fun _ => false)
    (householdToDTO [] (Household.mk 1 (some "milk") "milk" 2 100 7))
    rfl (by decide)

/-- C5: when the request context holds no claims, or the held claims yield an
empty `get_property_ids()`, `find_household_item` returns an empty item list
and `session.execute` is never reached, for every search term and database
content. -/
theorem find_household_item_empty_claims (token : Option TokenPayload)
    (search_term : String) (db : List Household) (locs : List LocationPath)
    (matchesSearch : Household → Bool) (rank : Household → Int)
    (db_error : Bool) (item_error : Household → Bool)
    (h : token = none ∨ ∃ C, token = some C ∧ C.get_property_ids = []) :
    (FindItem.find_household_item token search_term db locs
        matchesSearch rank db_error item_error).response.items = []
    ∧ (FindItem.find_household_item token search_term db locs
        matchesSearch rank db_error item_error).query_executed = false := by
  unfold FindItem.find_household_item
  split
  · exact ⟨rfl, rfl⟩
  · rcases h with h | ⟨C, hC, hids⟩
    · subst h
      simp [accessibleIds]
    · subst hC
      simp [accessibleIds, hids]

/-- Witness for C5: no token in the request context. -/
theorem find_household_item_empty_claims_witness :
    (FindItem.find_household_item none "milk" [Household.mk 1 (some "milk") "milk" 2 100 7]
        [] (fun _ => true) (fun _ => 0) false (fun _ => false)).response.items = []
    ∧ (FindItem.find_household_item none "milk" [Household.mk 1 (some "milk") "milk" 2 100 7]
        [] (fun _ => true) (fun _ => 0) false (fun _ => false)).query_executed = false :=
  find_household_item_empty_claims none "milk" [Household.mk 1 (some "milk") "milk" 2 100 7]
    [] (fun _ => true) (fun _ => 0) false (fun _ => false) (Or.inl rfl)

/-- C9: `find_household_item` returns at most 10 items for every input, and
the rows produced by the underlying query are the `LIMIT 10` head of the
matching rows sorted by descending rank (so they are pairwise in descending
rank order). -/
theorem find_household_item_limit (token : Option TokenPayload)
    (search_term : String) (db : List Household) (locs : List LocationPath)
    (matchesSearch : Household → Bool) (rank : Household → Int)
    (db_error : Bool) (item_error : Household → Bool) :
    (FindItem.find_household_item token search_term db locs
        matchesSearch rank db_error item_error).response.items.length ≤ 10
    ∧ ∀ accessible, List.Pairwise (fun a b => rank b ≤ rank a)
        (queryRows db accessible matchesSearch rank) := by
  constructor
  · unfold FindItem.find_household_item
    split
    · simp
    · split
      · simp
      · split
        · simp
        · simp only [List.length_map]
          refine le_trans (List.length_filter_le _ _) ?_
          unfold queryRows
          exact List.length_take_le 10 _
  · intro accessible
    unfold queryRows
    exact (pairwise_sortDescBy rank _).take
